import Mathlib

/-!
Verification of the aws-security-scanner repository's finding-collection and
check-orchestration subsystem, as a shallow embedding in Lean.

Conventions of the embedding:
* Go structs become Lean structures with the same field names (AWS SDK fields
  keep the SDK casing). Pointer-typed optional SDK fields become `Option`.
* An AWS API call is modelled by the data it would return, packaged in the
  input (`AwsData`, `BucketData`, `IAMUser`): a call that can fail is an
  `Except String` value whose `.error` case carries the underlying error text.
* `time.Now()` is modelled as an ambient clock value `now : Nat`, passed to
  every function that constructs a Finding. The claims under study never
  inspect timestamps.
* Methods that mutate the `Scanner` become functions `Scanner → ... → Scanner`
  (the mutex-protected append is atomic state transformation); methods that
  also return a Go `error` return `Scanner × Option String`.
* `fmt.Sprintf` interpolation becomes string concatenation; `fmt.Print*`
  side effects (logging only) are not modelled.
-/

namespace AwsScanner

/-! ## models/findings.go -/

/-- Severity constant from models/findings.go. -/
def SeverityCritical : String := "CRITICAL"

/-- Severity constant from models/findings.go. -/
def SeverityHigh : String := "HIGH"

/-- Severity constant from models/findings.go. -/
def SeverityMedium : String := "MEDIUM"

/-- Severity constant from models/findings.go. -/
def SeverityLow : String := "LOW"

/-- Resource-type constant from models/findings.go. -/
def ResourceS3 : String := "S3_BUCKET"

/-- Resource-type constant from models/findings.go. -/
def ResourceSecurityGroup : String := "SECURITY_GROUP"

/-- Resource-type constant from models/findings.go. -/
def ResourceEBS : String := "EBS_VOLUME"

/-- Resource-type constant from models/findings.go. -/
def ResourceIAM : String := "IAM_USER"

/-- `models.Finding`: one security issue.  `Timestamp` is `time.Time`,
modelled as a `Nat` clock reading. -/
structure Finding where
  ResourceID : String
  ResourceType : String
  Severity : String
  Title : String
  Description : String
  Region : String
  Account : String
  Timestamp : Nat
deriving DecidableEq

/-- `models.NewFinding`: builds a Finding with `Region`/`Account` left at the
Go zero value `""` and `Timestamp` from the clock (`time.Now()`). -/
def NewFinding (now : Nat) (resourceID resourceType severity title description : String) :
    Finding :=
  { ResourceID := resourceID
    ResourceType := resourceType
    Severity := severity
    Title := title
    Description := description
    Region := ""
    Account := ""
    Timestamp := now }

/-- `models.NewCriticalFinding`. -/
def NewCriticalFinding (now : Nat) (resourceID resourceType title description : String) :
    Finding :=
  NewFinding now resourceID resourceType SeverityCritical title description

/-- `models.NewHighFinding`. -/
def NewHighFinding (now : Nat) (resourceID resourceType title description : String) :
    Finding :=
  NewFinding now resourceID resourceType SeverityHigh title description

/-- `models.NewMediumFinding`. -/
def NewMediumFinding (now : Nat) (resourceID resourceType title description : String) :
    Finding :=
  NewFinding now resourceID resourceType SeverityMedium title description

/-! ## scanner.go: the Scanner (orchestrator + finding store)

The Go struct also holds the AWS `session` and a `sync.Mutex`.  The session is
modelled separately as the `AwsData` each scan consumes; the mutex makes
`addFinding` atomic, which the functional embedding gives for free (its lock
discipline is modelled separately for the concurrency claim). -/

/-- `scanner.Scanner`: configured region plus the finding store slice. -/
structure Scanner where
  region : String
  findings : List Finding
deriving DecidableEq

/-- `Scanner.addFinding` (thread-safe append): under the mutex, overwrite the
finding's `Region` with the scanner's configured region, then append. -/
def Scanner.addFinding (s : Scanner) (finding : Finding) : Scanner :=
  { s with findings := s.findings ++ [{ finding with Region := s.region }] }

/-- `Scanner.GetFindings`: returns the findings slice (no lock taken). -/
def Scanner.GetFindings (s : Scanner) : List Finding :=
  s.findings

/-- `Scanner.GetFindingsBySeverity`: filters by exact severity string
(no lock taken). -/
def Scanner.GetFindingsBySeverity (s : Scanner) (severity : String) : List Finding :=
  s.findings.filter (fun finding => finding.Severity == severity)

/-- `Scanner.GetCriticalFindings`. -/
def Scanner.GetCriticalFindings (s : Scanner) : List Finding :=
  s.GetFindingsBySeverity SeverityCritical

/-! ## ec2.go: security-group checks -/

/-- `ec2.IpRange` (field `CidrIp *string`, always dereferenced by the code). -/
structure IpRange where
  CidrIp : String
deriving DecidableEq

/-- `ec2.IpPermission`: `FromPort`/`ToPort` are `*int64` (absent ⇒ the code
uses the zero value 0). -/
structure IpPermission where
  FromPort : Option Int
  ToPort : Option Int
  IpRanges : List IpRange
deriving DecidableEq

/-- `ec2.SecurityGroup`. -/
structure SecurityGroup where
  GroupId : String
  GroupName : String
  IpPermissions : List IpPermission
deriving DecidableEq

/-- The `criticalPorts` map literal of `checkPublicAccess`, in source textual
order.  Go map iteration order is unspecified; every claim about this check is
insensitive to the order of this table. -/
def criticalPorts : List (Int × String) :=
  [(22, "SSH"), (3389, "RDP"), (5432, "PostgreSQL"), (3306, "MySQL"),
   (1433, "SQL Server"), (27017, "MongoDB"), (6379, "Redis")]

/-- `Scanner.checkPublicAccess`: one CRITICAL finding per critical port inside
`[fromPort, toPort]`, plus one CRITICAL "all ports" finding when the range is
exactly `[0, 65535]`. -/
def Scanner.checkPublicAccess (now : Nat) (s : Scanner) (sgID sgName : String)
    (fromPort toPort : Int) : Scanner :=
  let s1 := criticalPorts.foldl (fun acc x =>
    if x.1 ≥ fromPort ∧ x.1 ≤ toPort then
      acc.addFinding (NewCriticalFinding now sgID ResourceSecurityGroup
        (x.2 ++ " Port Publicly Accessible")
        ("Security group \x27" ++ sgName ++ "\x27 (" ++ sgID ++ ") allows " ++ x.2 ++
          " access (port " ++ toString x.1 ++
          ") from the entire internet (0.0.0.0/0). This is a critical security risk."))
    else acc) s
  if fromPort == 0 && toPort == 65535 then
    s1.addFinding (NewCriticalFinding now sgID ResourceSecurityGroup
      "All Ports Publicly Accessible"
      ("Security group \x27" ++ sgName ++ "\x27 (" ++ sgID ++
        ") allows ALL ports from anywhere. This is extremely dangerous."))
  else s1

/-- `Scanner.checkSecurityGroupRules`: for each ingress permission, default
absent ports to 0, and for each `0.0.0.0/0` range run `checkPublicAccess`. -/
def Scanner.checkSecurityGroupRules (now : Nat) (s : Scanner) (sg : SecurityGroup) :
    Scanner :=
  sg.IpPermissions.foldl (fun acc permission =>
    permission.IpRanges.foldl (fun acc2 ipRange =>
      if ipRange.CidrIp == "0.0.0.0/0" then
        Scanner.checkPublicAccess now acc2 sg.GroupId sg.GroupName
          (permission.FromPort.getD 0) (permission.ToPort.getD 0)
      else acc2) acc) s

/-- `Scanner.scanSecurityGroups`: describe all security groups (listing
failure is fatal to the check), then examine each one. -/
def Scanner.scanSecurityGroups (now : Nat) (securityGroups : Except String (List SecurityGroup))
    (s : Scanner) : Scanner × Option String :=
  match securityGroups with
  | .error e => (s, some ("failed to describe security groups: " ++ e))
  | .ok sgs => (sgs.foldl (fun acc sg => Scanner.checkSecurityGroupRules now acc sg) s, none)

/-! ## s3.go: bucket checks -/

/-- `s3.Grantee` (field `URI *string`). -/
structure Grantee where
  URI : Option String
deriving DecidableEq

/-- `s3.Grant`. -/
structure Grant where
  Grantee : Grantee
deriving DecidableEq

/-- One bucket together with the results of the three per-bucket API calls the
check performs on it: `GetBucketEncryption` (only success/failure is
consulted), `GetBucketAcl` (the grants on success), `GetBucketVersioning`
(`Status *string` on success). -/
structure BucketData where
  Name : String
  encryption : Except String Unit
  acl : Except String (List Grant)
  versioning : Except String (Option String)

/-- `Scanner.checkBucketEncryption`: a failed `GetBucketEncryption` call is
treated as "not encrypted" ⇒ one HIGH finding. -/
def Scanner.checkBucketEncryption (now : Nat) (s : Scanner) (b : BucketData) : Scanner :=
  match b.encryption with
  | .error _ =>
    s.addFinding (NewHighFinding now b.Name ResourceS3
      "S3 Bucket Not Encrypted"
      ("Bucket \x27" ++ b.Name ++ "\x27 does not have server-side encryption enabled. " ++
        "Data at rest is not protected."))
  | .ok _ => s

/-- The two well-known-group URIs that make an ACL grant public
(`AllUsers` / `AuthenticatedUsers`), as tested by `checkBucketPublicAccess`. -/
def publicGrantURI (uri : String) : Bool :=
  uri == "http://acs.amazonaws.com/groups/global/AllUsers" ||
  uri == "http://acs.amazonaws.com/groups/global/AuthenticatedUsers"

/-- The grant loop of `Scanner.checkBucketPublicAccess`: first grant whose
`Grantee.URI` names a public group ⇒ one CRITICAL finding and `return`
(remaining grants are never examined). -/
def Scanner.scanGrantsForPublicAccess (now : Nat) (s : Scanner) (bucketName : String) :
    List Grant → Scanner
  | [] => s
  | grant :: rest =>
    match grant.Grantee.URI with
    | some uri =>
      if publicGrantURI uri then
        s.addFinding (NewCriticalFinding now bucketName ResourceS3
          "S3 Bucket Publicly Accessible"
          ("Bucket \x27" ++ bucketName ++ "\x27 allows public access via ACL. " ++
            "This could expose sensitive data to the internet."))
      else Scanner.scanGrantsForPublicAccess now s bucketName rest
    | none => Scanner.scanGrantsForPublicAccess now s bucketName rest

/-- `Scanner.checkBucketPublicAccess`: a failed `GetBucketAcl` call is
silently skipped; otherwise scan the grants. -/
def Scanner.checkBucketPublicAccess (now : Nat) (s : Scanner) (b : BucketData) : Scanner :=
  match b.acl with
  | .error _ => s
  | .ok grants => Scanner.scanGrantsForPublicAccess now s b.Name grants

/-- `Scanner.checkBucketVersioning`: a failed `GetBucketVersioning` call is
silently skipped; `Status == nil || *Status != "Enabled"` ⇒ one MEDIUM
finding. -/
def Scanner.checkBucketVersioning (now : Nat) (s : Scanner) (b : BucketData) : Scanner :=
  match b.versioning with
  | .error _ => s
  | .ok status =>
    if status == some "Enabled" then s
    else
      s.addFinding (NewMediumFinding now b.Name ResourceS3
        "S3 Bucket Versioning Disabled"
        ("Bucket \x27" ++ b.Name ++ "\x27 does not have versioning enabled. " ++
          "Cannot recover from accidental deletion or modification."))

/-- `Scanner.scanS3`: list all buckets (listing failure is fatal to the
check), then run the three per-bucket checks on each bucket in order. -/
def Scanner.scanS3 (now : Nat) (buckets : Except String (List BucketData))
    (s : Scanner) : Scanner × Option String :=
  match buckets with
  | .error e => (s, some ("failed to list S3 buckets: " ++ e))
  | .ok bs =>
    (bs.foldl (fun acc b =>
      Scanner.checkBucketVersioning now
        (Scanner.checkBucketPublicAccess now
          (Scanner.checkBucketEncryption now acc b) b) b) s, none)

/-! ## iam.go: IAM user checks -/

/-- `iam.AccessKeyMetadata` fields consulted by the code. -/
structure AccessKeyMetadata where
  Status : String
  CreateDate : Nat
deriving DecidableEq

/-- One IAM user together with the results of the per-user API calls:
`GetLoginProfile` (only success/failure is consulted), `ListMFADevices`
(only the device count is consulted; devices are modelled as `Unit`),
`ListAccessKeys`. -/
structure IAMUser where
  UserName : String
  loginProfile : Except String Unit
  mfaDevices : Except String (List Unit)
  accessKeys : Except String (List AccessKeyMetadata)

/-- `Scanner.checkUserMFA`: no login profile (call fails) ⇒ skip; failed
`ListMFADevices` ⇒ skip; console access with zero MFA devices ⇒ one HIGH
finding. -/
def Scanner.checkUserMFA (now : Nat) (s : Scanner) (u : IAMUser) : Scanner :=
  match u.loginProfile with
  | .error _ => s
  | .ok _ =>
    match u.mfaDevices with
    | .error _ => s
    | .ok devices =>
      if devices.length == 0 then
        s.addFinding (NewHighFinding now u.UserName ResourceIAM
          "IAM User Without MFA"
          ("IAM user \x27" ++ u.UserName ++ "\x27 has console access but no MFA device configured. " ++
            "MFA provides critical additional security layer."))
      else s

/-- `Scanner.checkUserAccessKeys`: a failed `ListAccessKeys` call is silently
skipped; the loop over keys only inspects `Status`/`CreateDate` and appends
nothing (a defined no-op placeholder in the source). -/
def Scanner.checkUserAccessKeys (s : Scanner) (u : IAMUser) : Scanner :=
  match u.accessKeys with
  | .error _ => s
  | .ok _keys => s

/-- `Scanner.scanIAM`: list all users (listing failure is fatal to the
check), then run the per-user checks on each user. -/
def Scanner.scanIAM (now : Nat) (users : Except String (List IAMUser))
    (s : Scanner) : Scanner × Option String :=
  match users with
  | .error e => (s, some ("failed to list IAM users: " ++ e))
  | .ok us =>
    (us.foldl (fun acc u =>
      Scanner.checkUserAccessKeys (Scanner.checkUserMFA now acc u) u) s, none)

/-! ## scanner.go: run modes -/

/-- The resource metadata the three checks consume during one run: the
results of the three listing calls (`ListBuckets`, `DescribeSecurityGroups`,
`ListUsers`) together with the per-resource call results. -/
structure AwsData where
  buckets : Except String (List BucketData)
  securityGroups : Except String (List SecurityGroup)
  users : Except String (List IAMUser)

/-- `Scanner.Scan` (sequential mode): S3, then security groups, then IAM; a
check failure is returned immediately, wrapped with the check's name, and the
remaining checks never run.  The store keeps whatever the earlier checks
appended (Go returns the error while `s` retains its state). -/
def Scanner.Scan (now : Nat) (data : AwsData) (s : Scanner) : Scanner × Option String :=
  match Scanner.scanS3 now data.buckets s with
  | (s1, some e) => (s1, some ("S3 scan failed: " ++ e))
  | (s1, none) =>
    match Scanner.scanSecurityGroups now data.securityGroups s1 with
    | (s2, some e) => (s2, some ("Security Group scan failed: " ++ e))
    | (s2, none) =>
      match Scanner.scanIAM now data.users s2 with
      | (s3, some e) => (s3, some ("IAM scan failed: " ++ e))
      | (s3, none) => (s3, none)

/-! ## reporter/reporter.go -/

/-- `reporter.Reporter`. -/
structure Reporter where
  findings : List Finding
deriving DecidableEq

/-- `reporter.NewReporter`. -/
def NewReporter (findings : List Finding) : Reporter :=
  { findings := findings }

/-- The `severityOrder` map of `Reporter.SortBySeverity`; a severity string
absent from the map gets the Go zero value 0. -/
def severityOrder (severity : String) : Nat :=
  if severity == SeverityCritical then 0
  else if severity == SeverityHigh then 1
  else if severity == SeverityMedium then 2
  else if severity == SeverityLow then 3
  else 0

/-- Adjacent-pairs sortedness under the comparator of `SortBySeverity`
(severity rank non-decreasing left to right, CRITICAL first). -/
def sortedBySeverity : List Finding → Bool
  | [] => true
  | [_] => true
  | a :: b :: rest =>
    decide (severityOrder a.Severity ≤ severityOrder b.Severity) &&
      sortedBySeverity (b :: rest)

/-- `Reporter.SortBySeverity` sorts `r.findings` in place with Go's
`sort.Slice` and the comparator `severityOrder[f_i] < severityOrder[f_j]`.
`sort.Slice` is a standard-library collaborator; its documented contract is
"sorts the slice x given the provided less function; the sort is NOT
guaranteed to be stable".  It is therefore embedded as the relation between
the reporter before and after the call: the result is some permutation of the
input that is sorted under the comparator.  Every guarantee the method gives
is a consequence of this relation; anything not implied by it (such as
stability) is not guaranteed by the code. -/
def Reporter.SortBySeverity (r rOut : Reporter) : Prop :=
  List.Perm rOut.findings r.findings ∧ sortedBySeverity rOut.findings = true

/-! ## Frame lemmas: every check only appends region-normalized findings

`Emits h d` says the state transformer `h` leaves the region unchanged and
appends exactly `d region` to the store.  All checks are built from
`addFinding`, `if`, composition and folds, so `Emits` holds of each of them
with some delta; `EmitsSome` packages the existential. -/

def Emits (h : Scanner → Scanner) (d : String → List Finding) : Prop :=
  ∀ s : Scanner, h s = { region := s.region, findings := s.findings ++ d s.region }

def EmitsSome (h : Scanner → Scanner) : Prop :=
  ∃ d, Emits h d

theorem emitsSome_id : EmitsSome (fun s => s) := by
  refine ⟨fun _ => [], fun s => ?_⟩
  simp

theorem emitsSome_addFinding (f : Finding) :
    EmitsSome (fun s => Scanner.addFinding s f) := by
  refine ⟨fun r => [{ f with Region := r }], fun s => ?_⟩
  rfl

theorem emitsSome_seq {h1 h2 : Scanner → Scanner} (e1 : EmitsSome h1) (e2 : EmitsSome h2) :
    EmitsSome (fun s => h2 (h1 s)) := by
  obtain ⟨d1, hd1⟩ := e1
  obtain ⟨d2, hd2⟩ := e2
  refine ⟨fun r => d1 r ++ d2 r, fun s => ?_⟩
  show h2 (h1 s) = _
  rw [hd1, hd2]
  simp

theorem emitsSome_ite (c : Prop) [Decidable c] {h1 h2 : Scanner → Scanner}
    (e1 : EmitsSome h1) (e2 : EmitsSome h2) :
    EmitsSome (fun s => if c then h1 s else h2 s) := by
  by_cases hc : c
  · obtain ⟨d1, hd1⟩ := e1
    exact ⟨d1, fun s => by simp [hc, hd1 s]⟩
  · obtain ⟨d2, hd2⟩ := e2
    exact ⟨d2, fun s => by simp [hc, hd2 s]⟩

theorem emitsSome_foldl {α : Type} {step : Scanner → α → Scanner}
    (hstep : ∀ x, EmitsSome (fun s => step s x)) (l : List α) :
    EmitsSome (fun s => l.foldl step s) := by
  induction l with
  | nil => exact emitsSome_id
  | cons x xs ih =>
    obtain ⟨dx, hdx⟩ := hstep x
    obtain ⟨dxs, hdxs⟩ := ih
    refine ⟨fun r => dx r ++ dxs r, fun s => ?_⟩
    show List.foldl step s (x :: xs) = _
    rw [List.foldl_cons]
    have hx : step s x = { region := s.region, findings := s.findings ++ dx s.region } := hdx s
    rw [hx]
    have hxs := hdxs { region := s.region, findings := s.findings ++ dx s.region }
    simp only at hxs
    rw [hxs]
    simp

/-- Canonical form of `EmitsSome`: the delta appended to any store equals the
delta obtained by running the transformer on an empty store with the same
region. -/
theorem emitsSome_canonical {h : Scanner → Scanner} (e : EmitsSome h) (s : Scanner) :
    h s = { region := s.region,
            findings := s.findings ++ (h { region := s.region, findings := [] }).findings } := by
  obtain ⟨d, hd⟩ := e
  rw [hd s, hd { region := s.region, findings := [] }]
  simp

theorem emitsSome_checkBucketEncryption (now : Nat) (b : BucketData) :
    EmitsSome (fun s => Scanner.checkBucketEncryption now s b) := by
  cases hb : b.encryption with
  | error e =>
    simp only [Scanner.checkBucketEncryption, hb]
    exact emitsSome_addFinding _
  | ok u =>
    simp only [Scanner.checkBucketEncryption, hb]
    exact emitsSome_id

theorem emitsSome_scanGrantsForPublicAccess (now : Nat) (name : String) (grants : List Grant) :
    EmitsSome (fun s => Scanner.scanGrantsForPublicAccess now s name grants) := by
  induction grants with
  | nil => exact emitsSome_id
  | cons g rest ih =>
    cases hg : g.Grantee.URI with
    | none =>
      simp only [Scanner.scanGrantsForPublicAccess, hg]
      exact ih
    | some uri =>
      by_cases hp : publicGrantURI uri
      · simp only [Scanner.scanGrantsForPublicAccess, hg, hp, if_true]
        exact emitsSome_addFinding _
      · simp only [Scanner.scanGrantsForPublicAccess, hg, hp, if_false]
        exact ih

theorem emitsSome_checkBucketPublicAccess (now : Nat) (b : BucketData) :
    EmitsSome (fun s => Scanner.checkBucketPublicAccess now s b) := by
  cases hb : b.acl with
  | error e =>
    simp only [Scanner.checkBucketPublicAccess, hb]
    exact emitsSome_id
  | ok grants =>
    simp only [Scanner.checkBucketPublicAccess, hb]
    exact emitsSome_scanGrantsForPublicAccess now b.Name grants

theorem emitsSome_checkBucketVersioning (now : Nat) (b : BucketData) :
    EmitsSome (fun s => Scanner.checkBucketVersioning now s b) := by
  cases hb : b.versioning with
  | error e =>
    simp only [Scanner.checkBucketVersioning, hb]
    exact emitsSome_id
  | ok status =>
    simp only [Scanner.checkBucketVersioning, hb]
    exact emitsSome_ite _ emitsSome_id (emitsSome_addFinding _)

theorem emitsSome_bucketStep (now : Nat) (b : BucketData) :
    EmitsSome (fun s =>
      Scanner.checkBucketVersioning now
        (Scanner.checkBucketPublicAccess now (Scanner.checkBucketEncryption now s b) b) b) :=
  emitsSome_seq
    (emitsSome_seq (emitsSome_checkBucketEncryption now b) (emitsSome_checkBucketPublicAccess now b))
    (emitsSome_checkBucketVersioning now b)

theorem emitsSome_checkPublicAccess (now : Nat) (sgID sgName : String) (fromPort toPort : Int) :
    EmitsSome (fun s => Scanner.checkPublicAccess now s sgID sgName fromPort toPort) := by
  simp only [Scanner.checkPublicAccess]
  exact emitsSome_seq
    (emitsSome_foldl (fun x => emitsSome_ite _ (emitsSome_addFinding _) emitsSome_id) criticalPorts)
    (emitsSome_ite _ (emitsSome_addFinding _) emitsSome_id)

theorem emitsSome_checkSecurityGroupRules (now : Nat) (sg : SecurityGroup) :
    EmitsSome (fun s => Scanner.checkSecurityGroupRules now s sg) := by
  simp only [Scanner.checkSecurityGroupRules]
  exact emitsSome_foldl (fun permission =>
    emitsSome_foldl (fun ipRange =>
      emitsSome_ite ((ipRange.CidrIp == "0.0.0.0/0") = true)
        (emitsSome_checkPublicAccess now sg.GroupId sg.GroupName
          (permission.FromPort.getD 0) (permission.ToPort.getD 0)) emitsSome_id)
      permission.IpRanges) sg.IpPermissions

theorem emitsSome_checkUserMFA (now : Nat) (u : IAMUser) :
    EmitsSome (fun s => Scanner.checkUserMFA now s u) := by
  cases hl : u.loginProfile with
  | error e =>
    simp only [Scanner.checkUserMFA, hl]
    exact emitsSome_id
  | ok lp =>
    cases hm : u.mfaDevices with
    | error e =>
      simp only [Scanner.checkUserMFA, hl, hm]
      exact emitsSome_id
    | ok devices =>
      simp only [Scanner.checkUserMFA, hl, hm]
      exact emitsSome_ite _ (emitsSome_addFinding _) emitsSome_id

theorem emitsSome_checkUserAccessKeys (u : IAMUser) :
    EmitsSome (fun s => Scanner.checkUserAccessKeys s u) := by
  cases hk : u.accessKeys with
  | error e =>
    simp only [Scanner.checkUserAccessKeys, hk]
    exact emitsSome_id
  | ok keys =>
    simp only [Scanner.checkUserAccessKeys, hk]
    exact emitsSome_id

theorem emitsSome_userStep (now : Nat) (u : IAMUser) :
    EmitsSome (fun s => Scanner.checkUserAccessKeys (Scanner.checkUserMFA now s u) u) :=
  emitsSome_seq (emitsSome_checkUserMFA now u) (emitsSome_checkUserAccessKeys u)

/-! ## Per-check deltas and errors

Each whole check (S3, security groups, IAM) either fails its listing call —
appending nothing and producing an error — or appends a delta that depends
only on the consumed AWS data and the configured region (the `EmitsSome`
lemmas above).  `xDelta` is that delta, read off by running the check on an
empty store; `xErr` is the check's error. -/

/-- Findings the S3 check appends for the given listing result and region. -/
def s3Delta (now : Nat) (buckets : Except String (List BucketData)) (r : String) :
    List Finding :=
  ((Scanner.scanS3 now buckets { region := r, findings := [] }).1).findings

/-- Error returned by the S3 check. -/
def s3Err (buckets : Except String (List BucketData)) : Option String :=
  match buckets with
  | .error e => some ("failed to list S3 buckets: " ++ e)
  | .ok _ => none

/-- Findings the security-group check appends. -/
def sgDelta (now : Nat) (securityGroups : Except String (List SecurityGroup)) (r : String) :
    List Finding :=
  ((Scanner.scanSecurityGroups now securityGroups { region := r, findings := [] }).1).findings

/-- Error returned by the security-group check. -/
def sgErr (securityGroups : Except String (List SecurityGroup)) : Option String :=
  match securityGroups with
  | .error e => some ("failed to describe security groups: " ++ e)
  | .ok _ => none

/-- Findings the IAM check appends. -/
def iamDelta (now : Nat) (users : Except String (List IAMUser)) (r : String) : List Finding :=
  ((Scanner.scanIAM now users { region := r, findings := [] }).1).findings

/-- Error returned by the IAM check. -/
def iamErr (users : Except String (List IAMUser)) : Option String :=
  match users with
  | .error e => some ("failed to list IAM users: " ++ e)
  | .ok _ => none

theorem scanS3_frame (now : Nat) (buckets : Except String (List BucketData)) (s : Scanner) :
    Scanner.scanS3 now buckets s =
      ({ region := s.region, findings := s.findings ++ s3Delta now buckets s.region },
        s3Err buckets) := by
  cases buckets with
  | error e => simp [Scanner.scanS3, s3Delta, s3Err]
  | ok bs =>
    have h := emitsSome_canonical (emitsSome_foldl (fun b => emitsSome_bucketStep now b) bs) s
    simp only at h
    simp only [Scanner.scanS3, s3Delta, s3Err]
    exact Prod.ext (by rw [h]) rfl

theorem scanSecurityGroups_frame (now : Nat)
    (securityGroups : Except String (List SecurityGroup)) (s : Scanner) :
    Scanner.scanSecurityGroups now securityGroups s =
      ({ region := s.region, findings := s.findings ++ sgDelta now securityGroups s.region },
        sgErr securityGroups) := by
  cases securityGroups with
  | error e => simp [Scanner.scanSecurityGroups, sgDelta, sgErr]
  | ok sgs =>
    have h := emitsSome_canonical
      (emitsSome_foldl (fun sg => emitsSome_checkSecurityGroupRules now sg) sgs) s
    simp only at h
    simp only [Scanner.scanSecurityGroups, sgDelta, sgErr]
    exact Prod.ext (by rw [h]) rfl

theorem scanIAM_frame (now : Nat) (users : Except String (List IAMUser)) (s : Scanner) :
    Scanner.scanIAM now users s =
      ({ region := s.region, findings := s.findings ++ iamDelta now users s.region },
        iamErr users) := by
  cases users with
  | error e => simp [Scanner.scanIAM, iamDelta, iamErr]
  | ok us =>
    have h := emitsSome_canonical (emitsSome_foldl (fun u => emitsSome_userStep now u) us) s
    simp only at h
    simp only [Scanner.scanIAM, iamDelta, iamErr]
    exact Prod.ext (by rw [h]) rfl

/-- When no listing call fails, the sequential `Scan` succeeds and the final
store is the initial findings followed by the three checks' deltas in the
fixed check order. -/
theorem Scan_ok (now : Nat) (data : AwsData) (s : Scanner)
    (h1 : s3Err data.buckets = none) (h2 : sgErr data.securityGroups = none)
    (h3 : iamErr data.users = none) :
    Scanner.Scan now data s =
      ({ region := s.region,
         findings := s.findings ++ s3Delta now data.buckets s.region ++
           sgDelta now data.securityGroups s.region ++ iamDelta now data.users s.region },
        none) := by
  simp only [Scanner.Scan, scanS3_frame, scanSecurityGroups_frame, scanIAM_frame, h1, h2, h3,
    List.append_assoc]

/-! ## Concurrent mode

`Scanner.ScanConcurrent` launches one goroutine per check over the shared
store and session, joins them with a `sync.WaitGroup`, and collects failures
in a buffered error channel (`errChan`, capacity 3), returning the first
collected error after the join (or nil if the channel is empty).

Embedding of the concurrency: the mutex makes each `addFinding` atomic, and
by the `EmitsSome` lemmas the findings a check appends depend only on the
consumed AWS data and the (never-mutated) configured region — not on the
store contents.  Hence every execution's final store is the initial findings
followed by some interleaving of the three checks' delta lists (each check's
appends stay in its own program order), and the channel holds the failing
checks' errors in completion order — an arbitrary permutation of them.  The
relation below has one witness per such schedule; `RunConcurrent`'s contract
must hold of all of them. -/

/-- `z` is a merge of `l1` and `l2` preserving the relative order inside each. -/
inductive Interleave {α : Type} : List α → List α → List α → Prop
  | nil : Interleave [] [] []
  | left {a : α} {l1 l2 z : List α} : Interleave l1 l2 z → Interleave (a :: l1) l2 (a :: z)
  | right {a : α} {l1 l2 z : List α} : Interleave l1 l2 z → Interleave l1 (a :: l2) (a :: z)

/-- Three-way interleaving. -/
def Interleave3 {α : Type} (l1 l2 l3 z : List α) : Prop :=
  ∃ w, Interleave l1 l2 w ∧ Interleave w l3 z

theorem interleave_perm {α : Type} {l1 l2 z : List α} (h : Interleave l1 l2 z) :
    List.Perm z (l1 ++ l2) := by
  induction h with
  | nil => simp
  | left h ih => exact ih.cons _
  | right h ih => exact (ih.cons _).trans List.perm_middle.symm

theorem interleave3_perm {α : Type} {l1 l2 l3 z : List α} (h : Interleave3 l1 l2 l3 z) :
    List.Perm z (l1 ++ l2 ++ l3) := by
  obtain ⟨w, hw, hz⟩ := h
  exact (interleave_perm hz).trans (List.Perm.append_right l3 (interleave_perm hw))

/-- The multiset of errors sent to `errChan`: one per failing check (a check
sends only when its listing call failed).  Listed in check-declaration order;
the channel receives them in completion order, i.e. in some permutation. -/
def errorsSent (data : AwsData) : List String :=
  [s3Err data.buckets, sgErr data.securityGroups, iamErr data.users].filterMap id

/-- `Scanner.ScanConcurrent` as the relation between the pre-state and the
possible results `(final scanner, returned error)`.  A result is reachable
iff the final store appends some interleaving `z` of the three checks' deltas
to the initial findings (region unchanged), and the returned error is the
head of some completion-order permutation `chan` of the failing checks'
errors (`none` when no check failed — the loop over the drained channel
returns the first error or falls through to nil). -/
def Scanner.ScanConcurrent (now : Nat) (data : AwsData) (s : Scanner)
    (out : Scanner × Option String) : Prop :=
  ∃ z chan,
    Interleave3 (s3Delta now data.buckets s.region) (sgDelta now data.securityGroups s.region)
      (iamDelta now data.users s.region) z ∧
    List.Perm chan (errorsSent data) ∧
    out.1 = { region := s.region, findings := s.findings ++ z } ∧
    out.2 = chan.head?

/-! ## Lock discipline of the store (part_002)

For the concurrency-safety claim the store's methods are modelled at the
level of their mutex and findings-slice accesses, in source order:
which statements run between `mu.Lock()` and the deferred `mu.Unlock()`. -/

/-- An atomic event on the scanner's shared state: acquiring/releasing
`s.mu`, or touching the shared `s.findings` slice. -/
inductive StoreEvent
  | lockAcquire
  | lockRelease
  | readFindings
  | writeFindings
deriving DecidableEq

/-- Events performed by `Scanner.addFinding`: `s.mu.Lock()`; write
`finding.Region`; `s.findings = append(s.findings, finding)` (a read and a
write of the shared slice); deferred `s.mu.Unlock()`. -/
def addFindingEvents : List StoreEvent :=
  [.lockAcquire, .readFindings, .writeFindings, .lockRelease]

/-- Events performed by `Scanner.GetFindings`: `return s.findings` — a read
of the shared slice with no lock operation anywhere in the method. -/
def getFindingsEvents : List StoreEvent :=
  [.readFindings]

/-- Events performed by `Scanner.GetFindingsBySeverity`: the `range` loop
reads the shared slice; no lock operation anywhere in the method. -/
def getFindingsBySeverityEvents : List StoreEvent :=
  [.readFindings]

/-- Checks that every access to the shared findings slice in the trace
happens while the lock is held (`d` = current hold depth). -/
def accessesLocked : Nat → List StoreEvent → Bool
  | _, [] => true
  | d, .lockAcquire :: rest => accessesLocked (d + 1) rest
  | d, .lockRelease :: rest => accessesLocked (d - 1) rest
  | d, .readFindings :: rest => decide (0 < d) && accessesLocked d rest
  | d, .writeFindings :: rest => decide (0 < d) && accessesLocked d rest

/-- A method is mutex-protected when all its shared-slice accesses happen
under the lock. -/
def mutexProtected (events : List StoreEvent) : Bool :=
  accessesLocked 0 events

/-! ## Claims -/

/-- C1: Region override invariant.  Appending any finding `f` — whatever
region the check put on it, including the empty default — makes exactly one
new finding observable through the reader `GetFindings`: the argument with
its `Region` overwritten to the scanner's configured region.  Consequently
every finding observable after the append is either a previously observable
one or carries the configured region. -/
theorem region_override_invariant (s : Scanner) (f : Finding) :
    Scanner.GetFindings (Scanner.addFinding s f) =
      Scanner.GetFindings s ++ [{ f with Region := s.region }] ∧
    ∀ g ∈ Scanner.GetFindings (Scanner.addFinding s f),
      g ∈ Scanner.GetFindings s ∨ g.Region = s.region := by
  refine ⟨rfl, fun g hg => ?_⟩
  simp only [Scanner.GetFindings, Scanner.addFinding, List.mem_append, List.mem_singleton] at hg
  rcases hg with hg | hg
  · exact Or.inl hg
  · subst hg
    exact Or.inr rfl

/-- Witness for C1 at a concrete store and finding: the appended copy is
observable through `GetFindings` and carries the configured region. -/
theorem region_override_invariant_witness :
    Scanner.GetFindings
        (Scanner.addFinding { region := "eu-west-2", findings := [] }
          (NewCriticalFinding 7 "sg-9" ResourceSecurityGroup "SSH Port Publicly Accessible" "x")) =
      Scanner.GetFindings ({ region := "eu-west-2", findings := [] } : Scanner) ++
        [{ NewCriticalFinding 7 "sg-9" ResourceSecurityGroup "SSH Port Publicly Accessible" "x"
            with Region := "eu-west-2" }] ∧
    ({ NewCriticalFinding 7 "sg-9" ResourceSecurityGroup "SSH Port Publicly Accessible" "x"
        with Region := "eu-west-2" } : Finding).Region = "eu-west-2" := by
  have h := region_override_invariant { region := "eu-west-2", findings := [] }
    (NewCriticalFinding 7 "sg-9" ResourceSecurityGroup "SSH Port Publicly Accessible" "x")
  refine ⟨h.1, ?_⟩
  have hg := h.2 ({ NewCriticalFinding 7 "sg-9" ResourceSecurityGroup
    "SSH Port Publicly Accessible" "x" with Region := "eu-west-2" }) (by decide)
  rcases hg with hg | hg
  · exact absurd hg (by decide)
  · exact hg

/-- C9 (code_bug evidence): the store's mutation path `addFinding` accesses
the shared findings slice only while holding `s.mu`, but the readers
`GetFindings` and `GetFindingsBySeverity` access the shared slice with the
lock never taken, contradicting the claim that every read is protected by
the store's single mutual-exclusion lock. -/
theorem store_lock_discipline :
    mutexProtected addFindingEvents = true ∧
    mutexProtected getFindingsEvents = false ∧
    mutexProtected getFindingsBySeverityEvents = false := by
  decide

/-- C10: an ingress rule open to `0.0.0.0/0` whose `FromPort` and `ToPort`
are both absent (defaulted to 0) produces no findings at all: no critical
port lies in `[0, 0]` and the "all ports" branch requires `ToPort == 65535`
exactly.  The scanner is returned unchanged. -/
theorem all_protocol_rule_no_findings (now : Nat) (s : Scanner) (gid gname : String) :
    Scanner.checkSecurityGroupRules now s
      { GroupId := gid, GroupName := gname,
        IpPermissions := [{ FromPort := none, ToPort := none,
                            IpRanges := [{ CidrIp := "0.0.0.0/0" }] }] } = s := by
  simp +decide [Scanner.checkSecurityGroupRules, Scanner.checkPublicAccess, criticalPorts]

/-- C4: Port-table completeness.  A rule with unrestricted source and port
range `[0, 65535]` yields exactly 8 findings: for each of the 7 critical
ports one CRITICAL finding whose title names the service, plus one CRITICAL
"All Ports Publicly Accessible" finding. -/
theorem port_table_completeness (now : Nat) (s : Scanner) (sgID sgName : String) :
    ((Scanner.checkPublicAccess now s sgID sgName 0 65535).findings).length =
      s.findings.length + 8 ∧
    (∀ f ∈ ((Scanner.checkPublicAccess now s sgID sgName 0 65535).findings).drop
        s.findings.length, f.Severity = SeverityCritical) ∧
    (∀ title ∈ ["SSH Port Publicly Accessible", "RDP Port Publicly Accessible",
        "PostgreSQL Port Publicly Accessible", "MySQL Port Publicly Accessible",
        "SQL Server Port Publicly Accessible", "MongoDB Port Publicly Accessible",
        "Redis Port Publicly Accessible", "All Ports Publicly Accessible"],
      ((((Scanner.checkPublicAccess now s sgID sgName 0 65535).findings).drop
          s.findings.length).filter (fun f => f.Title == title)).length = 1) := by
  have hfind : (Scanner.checkPublicAccess now s sgID sgName 0 65535).findings =
      s.findings ++
        [{ NewCriticalFinding now sgID ResourceSecurityGroup "SSH Port Publicly Accessible"
            ("Security group \x27" ++ sgName ++ "\x27 (" ++ sgID ++ ") allows " ++ "SSH" ++
              " access (port " ++ toString (22 : Int) ++
              ") from the entire internet (0.0.0.0/0). This is a critical security risk.")
            with Region := s.region },
         { NewCriticalFinding now sgID ResourceSecurityGroup "RDP Port Publicly Accessible"
            ("Security group \x27" ++ sgName ++ "\x27 (" ++ sgID ++ ") allows " ++ "RDP" ++
              " access (port " ++ toString (3389 : Int) ++
              ") from the entire internet (0.0.0.0/0). This is a critical security risk.")
            with Region := s.region },
         { NewCriticalFinding now sgID ResourceSecurityGroup "PostgreSQL Port Publicly Accessible"
            ("Security group \x27" ++ sgName ++ "\x27 (" ++ sgID ++ ") allows " ++ "PostgreSQL" ++
              " access (port " ++ toString (5432 : Int) ++
              ") from the entire internet (0.0.0.0/0). This is a critical security risk.")
            with Region := s.region },
         { NewCriticalFinding now sgID ResourceSecurityGroup "MySQL Port Publicly Accessible"
            ("Security group \x27" ++ sgName ++ "\x27 (" ++ sgID ++ ") allows " ++ "MySQL" ++
              " access (port " ++ toString (3306 : Int) ++
              ") from the entire internet (0.0.0.0/0). This is a critical security risk.")
            with Region := s.region },
         { NewCriticalFinding now sgID ResourceSecurityGroup "SQL Server Port Publicly Accessible"
            ("Security group \x27" ++ sgName ++ "\x27 (" ++ sgID ++ ") allows " ++ "SQL Server" ++
              " access (port " ++ toString (1433 : Int) ++
              ") from the entire internet (0.0.0.0/0). This is a critical security risk.")
            with Region := s.region },
         { NewCriticalFinding now sgID ResourceSecurityGroup "MongoDB Port Publicly Accessible"
            ("Security group \x27" ++ sgName ++ "\x27 (" ++ sgID ++ ") allows " ++ "MongoDB" ++
              " access (port " ++ toString (27017 : Int) ++
              ") from the entire internet (0.0.0.0/0). This is a critical security risk.")
            with Region := s.region },
         { NewCriticalFinding now sgID ResourceSecurityGroup "Redis Port Publicly Accessible"
            ("Security group \x27" ++ sgName ++ "\x27 (" ++ sgID ++ ") allows " ++ "Redis" ++
              " access (port " ++ toString (6379 : Int) ++
              ") from the entire internet (0.0.0.0/0). This is a critical security risk.")
            with Region := s.region },
         { NewCriticalFinding now sgID ResourceSecurityGroup "All Ports Publicly Accessible"
            ("Security group \x27" ++ sgName ++ "\x27 (" ++ sgID ++
              ") allows ALL ports from anywhere. This is extremely dangerous.")
            with Region := s.region }] := by
    simp +decide [Scanner.checkPublicAccess, criticalPorts, Scanner.addFinding]
  rw [hfind, List.drop_left]
  refine ⟨by simp, ?_, ?_⟩
  · intro f hf
    simp only [List.mem_cons, List.not_mem_nil, or_false] at hf
    rcases hf with h | h | h | h | h | h | h | h <;> subst h <;> rfl
  · intro title htitle
    simp only [List.mem_cons, List.not_mem_nil, or_false] at htitle
    rcases htitle with h | h | h | h | h | h | h | h <;> subst h <;> rfl

/-- The SSH finding `checkPublicAccess` produces for group sg-1/web with the
full port range, in region us-east-1 at clock 0. -/
def exampleSshFinding : Finding :=
  { ResourceID := "sg-1", ResourceType := "SECURITY_GROUP", Severity := "CRITICAL",
    Title := "SSH Port Publicly Accessible",
    Description :=
      "Security group \x27web\x27 (sg-1) allows SSH access (port 22) from the entire internet (0.0.0.0/0). This is a critical security risk.",
    Region := "us-east-1", Account := "", Timestamp := 0 }

/-- Witness for C4 at a concrete store and rule: 8 findings are appended, the
appended SSH finding is CRITICAL, and each expected title occurs exactly
once among the appended findings. -/
theorem port_table_completeness_witness :
    ((Scanner.checkPublicAccess 0 { region := "us-east-1", findings := [] } "sg-1" "web"
        0 65535).findings).length =
      ({ region := "us-east-1", findings := [] } : Scanner).findings.length + 8 ∧
    exampleSshFinding.Severity = SeverityCritical ∧
    ((((Scanner.checkPublicAccess 0 { region := "us-east-1", findings := [] } "sg-1" "web"
        0 65535).findings).drop
        ({ region := "us-east-1", findings := [] } : Scanner).findings.length).filter
        (fun f => f.Title == "All Ports Publicly Accessible")).length = 1 := by
  have h := port_table_completeness 0 { region := "us-east-1", findings := [] } "sg-1" "web"
  exact ⟨h.1, h.2.1 exampleSshFinding (by decide),
    h.2.2 "All Ports Publicly Accessible" (by decide)⟩

/-- Whether an ACL grant names one of the two public well-known groups — the
condition under which the grant loop fires. -/
def isPublicGrant (g : Grant) : Bool :=
  match g.Grantee.URI with
  | some uri => publicGrantURI uri
  | none => false

/-- The grant loop appends the single public-access CRITICAL finding exactly
when some grant is public, independently of how many public grants follow the
first one. -/
theorem scanGrants_characterization (now : Nat) (s : Scanner) (name : String)
    (grants : List Grant) :
    Scanner.scanGrantsForPublicAccess now s name grants =
      if grants.any isPublicGrant then
        s.addFinding (NewCriticalFinding now name ResourceS3 "S3 Bucket Publicly Accessible"
          ("Bucket \x27" ++ name ++ "\x27 allows public access via ACL. " ++
            "This could expose sensitive data to the internet."))
      else s := by
  induction grants with
  | nil => simp [Scanner.scanGrantsForPublicAccess]
  | cons g rest ih =>
    cases hg : g.Grantee.URI with
    | none =>
      simp [Scanner.scanGrantsForPublicAccess, List.any_cons, isPublicGrant, hg, ih]
    | some uri =>
      by_cases hp : publicGrantURI uri
      · simp [Scanner.scanGrantsForPublicAccess, List.any_cons, isPublicGrant, hg, hp]
      · simp [Scanner.scanGrantsForPublicAccess, List.any_cons, isPublicGrant, hg, hp, ih]

/-- C5: At-most-one public-access finding.  For a bucket whose ACL holds at
least two public grants, the storage check appends exactly one
"S3 Bucket Publicly Accessible" finding for that bucket; moreover the grant
loop's result on the whole grant list equals its result on the list cut off
right after a public grant — the remaining grants are never scanned. -/
theorem at_most_one_public_access_finding (now : Nat) (s : Scanner) (b : BucketData)
    (grants : List Grant) (hacl : b.acl = .ok grants)
    (hN : 2 ≤ grants.countP isPublicGrant) :
    ((((Scanner.checkBucketPublicAccess now s b).findings).drop s.findings.length).filter
        (fun f => f.Title == "S3 Bucket Publicly Accessible" && f.ResourceID == b.Name &&
          f.Severity == SeverityCritical)).length
      = 1 ∧
    (∀ pre g rest, grants = pre ++ g :: rest → isPublicGrant g = true →
      Scanner.scanGrantsForPublicAccess now s b.Name grants =
        Scanner.scanGrantsForPublicAccess now s b.Name (pre ++ [g])) := by
  constructor
  · have hany : grants.any isPublicGrant = true := by
      rw [List.any_eq_true]
      have hpos : 0 < grants.countP isPublicGrant := by omega
      obtain ⟨a, ha, hpa⟩ := List.countP_pos_iff.mp hpos
      exact ⟨a, ha, hpa⟩
    simp only [Scanner.checkBucketPublicAccess, hacl, scanGrants_characterization, hany,
      if_true, Scanner.addFinding, List.drop_left]
    simp [NewCriticalFinding, NewFinding]
  · intro pre g rest hsplit hpub
    rw [scanGrants_characterization, scanGrants_characterization, hsplit]
    have h1 : (pre ++ g :: rest).any isPublicGrant = true := by
      simp [List.any_append, List.any_cons, hpub]
    have h2 : (pre ++ [g]).any isPublicGrant = true := by
      simp [List.any_append, List.any_cons, hpub]
    rw [h1, h2]

/-- Example store used by concrete witnesses. -/
def exampleStore : Scanner :=
  { region := "us-east-1", findings := [] }

/-- Two grants to the public well-known groups. -/
def examplePublicGrants : List Grant :=
  [{ Grantee := { URI := some "http://acs.amazonaws.com/groups/global/AllUsers" } },
   { Grantee := { URI := some "http://acs.amazonaws.com/groups/global/AuthenticatedUsers" } }]

/-- A bucket whose ACL holds two public grants. -/
def examplePublicBucket : BucketData :=
  { Name := "data-bucket", encryption := .ok (), acl := .ok examplePublicGrants,
    versioning := .ok (some "Enabled") }

/-- Witness for C5 at a concrete bucket with two public grants: exactly one
finding is emitted, and the loop's result equals its result on the list cut
off after the first (public) grant. -/
theorem at_most_one_public_access_finding_witness :
    2 ≤ examplePublicGrants.countP isPublicGrant ∧
    ((((Scanner.checkBucketPublicAccess 0 exampleStore examplePublicBucket).findings).drop
        exampleStore.findings.length).filter
        (fun f => f.Title == "S3 Bucket Publicly Accessible" &&
          f.ResourceID == examplePublicBucket.Name &&
          f.Severity == SeverityCritical)).length = 1 ∧
    Scanner.scanGrantsForPublicAccess 0 exampleStore examplePublicBucket.Name
        examplePublicGrants =
      Scanner.scanGrantsForPublicAccess 0 exampleStore examplePublicBucket.Name
        ([] ++ [{ Grantee := { URI := some "http://acs.amazonaws.com/groups/global/AllUsers" } }]) :=
  ⟨by decide,
   (at_most_one_public_access_finding 0 exampleStore examplePublicBucket examplePublicGrants
      rfl (by decide)).1,
   (at_most_one_public_access_finding 0 exampleStore examplePublicBucket examplePublicGrants
      rfl (by decide)).2 []
      { Grantee := { URI := some "http://acs.amazonaws.com/groups/global/AllUsers" } }
      [{ Grantee := { URI := some "http://acs.amazonaws.com/groups/global/AuthenticatedUsers" } }]
      rfl (by decide)⟩

/-- C8: MFA skip.  A principal whose login-profile lookup fails (no console
access) yields no MFA finding even with zero MFA devices; a principal with a
login profile and an empty MFA-device list yields exactly one finding, a HIGH
"IAM User Without MFA" finding for that user. -/
theorem mfa_skip (now : Nat) (s : Scanner) (u : IAMUser) :
    (∀ e, u.loginProfile = .error e → Scanner.checkUserMFA now s u = s) ∧
    (u.loginProfile = .ok () → u.mfaDevices = .ok [] →
      ∃ fin, (Scanner.checkUserMFA now s u).findings = s.findings ++ [fin] ∧
        fin.Severity = SeverityHigh ∧ fin.Title = "IAM User Without MFA" ∧
        fin.ResourceID = u.UserName ∧ fin.Region = s.region) := by
  constructor
  · intro e he
    simp [Scanner.checkUserMFA, he]
  · intro hl hm
    have h : (Scanner.checkUserMFA now s u).findings = s.findings ++
        [{ NewHighFinding now u.UserName ResourceIAM "IAM User Without MFA"
            ("IAM user \x27" ++ u.UserName ++ "\x27 has console access but no MFA device configured. " ++
              "MFA provides critical additional security layer.") with Region := s.region }] := by
      simp [Scanner.checkUserMFA, hl, hm, Scanner.addFinding]
    exact ⟨_, h, rfl, rfl, rfl, rfl⟩

/-- An IAM user with no console access and no MFA devices. -/
def exampleServiceUser : IAMUser :=
  { UserName := "ci-bot", loginProfile := .error "NoSuchEntity",
    mfaDevices := .ok [], accessKeys := .ok [] }

/-- An IAM user with console access and no MFA devices. -/
def exampleConsoleUser : IAMUser :=
  { UserName := "alex", loginProfile := .ok (), mfaDevices := .ok [],
    accessKeys := .ok [] }

/-- Witness for C8 at two concrete principals. -/
theorem mfa_skip_witness :
    Scanner.checkUserMFA 0 exampleStore exampleServiceUser = exampleStore ∧
    ∃ fin, (Scanner.checkUserMFA 0 exampleStore exampleConsoleUser).findings =
        exampleStore.findings ++ [fin] ∧
      fin.Severity = SeverityHigh ∧ fin.Title = "IAM User Without MFA" ∧
      fin.ResourceID = exampleConsoleUser.UserName ∧ fin.Region = exampleStore.region :=
  ⟨(mfa_skip 0 exampleStore exampleServiceUser).1 "NoSuchEntity" rfl,
   (mfa_skip 0 exampleStore exampleConsoleUser).2 rfl rfl⟩

/-- C6: Sequential abort with partial results.  `Scan` runs the checks in the
fixed order S3 (storage), security groups (network exposure), IAM (identity);
whichever check fails first, `Scan` immediately returns that check's error
wrapped with the check's name, the remaining checks never run, and the store
is exactly the state left by the checks that ran strictly before the failing
one (their findings retained, no rollback): an S3 listing failure leaves the
store untouched; a security-group listing failure leaves exactly the post-S3
state; an IAM listing failure leaves exactly the post-security-group state. -/
theorem sequential_abort_partial_results (now : Nat) (data : AwsData) (s : Scanner) :
    (∀ e, data.buckets = .error e →
      Scanner.Scan now data s =
        (s, some ("S3 scan failed: " ++ ("failed to list S3 buckets: " ++ e)))) ∧
    (∀ bs e, data.buckets = .ok bs → data.securityGroups = .error e →
      Scanner.Scan now data s =
        ((Scanner.scanS3 now data.buckets s).1,
          some ("Security Group scan failed: " ++
            ("failed to describe security groups: " ++ e)))) ∧
    (∀ bs sgs e, data.buckets = .ok bs → data.securityGroups = .ok sgs →
      data.users = .error e →
      Scanner.Scan now data s =
        ((Scanner.scanSecurityGroups now data.securityGroups
            (Scanner.scanS3 now data.buckets s).1).1,
          some ("IAM scan failed: " ++ ("failed to list IAM users: " ++ e)))) := by
  refine ⟨?_, ?_, ?_⟩
  · intro e he
    have hdelta : s3Delta now (Except.error e) s.region = [] := rfl
    simp only [Scanner.Scan, scanS3_frame, he, s3Err, hdelta, List.append_nil]
  · intro bs e hb hsg
    have hdelta : sgDelta now (Except.error e) s.region = [] := rfl
    simp only [Scanner.Scan, scanS3_frame, hb, s3Err, hsg, scanSecurityGroups_frame, sgErr,
      hdelta, List.append_nil]
  · intro bs sgs e hb hsg hu
    have hdelta : ∀ r, iamDelta now (Except.error e) r = [] := fun _ => rfl
    simp only [Scanner.Scan, scanS3_frame, hb, s3Err, hsg, scanSecurityGroups_frame, sgErr,
      hu, scanIAM_frame, iamErr, hdelta, List.append_nil]

/-- A bucket whose encryption lookup fails (⇒ one HIGH finding). -/
def exampleUnencryptedBucket : BucketData :=
  { Name := "logs", encryption := .error "ServerSideEncryptionConfigurationNotFoundError",
    acl := .ok [], versioning := .ok (some "Enabled") }

/-- Run data for the abort scenario: the S3 listing succeeds (one finding
produced), the security-group listing fails, and an IAM user that would
produce a finding exists but is never reached sequentially. -/
def exampleAbortData : AwsData :=
  { buckets := .ok [exampleUnencryptedBucket], securityGroups := .error "API timeout",
    users := .ok [exampleConsoleUser] }

/-- Run data whose S3 listing fails (security groups and users untouched). -/
def exampleS3FailData : AwsData :=
  { buckets := .error "access denied", securityGroups := .ok [],
    users := .ok [exampleConsoleUser] }

/-- Run data whose IAM listing fails after both earlier checks succeed. -/
def exampleIamFailData : AwsData :=
  { buckets := .ok [exampleUnencryptedBucket], securityGroups := .ok [],
    users := .error "throttled" }

/-- Witness for C6 at concrete runs failing at each of the three positions:
an S3 failure leaves the store untouched, a security-group failure returns
the post-S3 store (the IAM user's would-be MFA finding absent), and an IAM
failure returns the post-security-group store; each error is wrapped with
its check's name. -/
theorem sequential_abort_partial_results_witness :
    Scanner.Scan 0 exampleS3FailData exampleStore =
      (exampleStore,
        some ("S3 scan failed: " ++ ("failed to list S3 buckets: " ++ "access denied"))) ∧
    Scanner.Scan 0 exampleAbortData exampleStore =
      ((Scanner.scanS3 0 exampleAbortData.buckets exampleStore).1,
        some ("Security Group scan failed: " ++
          ("failed to describe security groups: " ++ "API timeout"))) ∧
    Scanner.Scan 0 exampleIamFailData exampleStore =
      ((Scanner.scanSecurityGroups 0 exampleIamFailData.securityGroups
          (Scanner.scanS3 0 exampleIamFailData.buckets exampleStore).1).1,
        some ("IAM scan failed: " ++ ("failed to list IAM users: " ++ "throttled"))) :=
  ⟨(sequential_abort_partial_results 0 exampleS3FailData exampleStore).1
      "access denied" rfl,
   (sequential_abort_partial_results 0 exampleAbortData exampleStore).2.1
      [exampleUnencryptedBucket] "API timeout" rfl rfl,
   (sequential_abort_partial_results 0 exampleIamFailData exampleStore).2.2
      [exampleUnencryptedBucket] [] "throttled" rfl rfl rfl⟩

/-- Two distinct findings of equal (CRITICAL) severity, already listed in an
order sorted by severity. -/
def exampleFindingA : Finding :=
  NewCriticalFinding 0 "sg-1111" ResourceSecurityGroup "SSH Port Publicly Accessible" "d1"

/-- Second equal-severity finding, distinct from `exampleFindingA`. -/
def exampleFindingB : Finding :=
  NewCriticalFinding 0 "sg-2222" ResourceSecurityGroup "RDP Port Publicly Accessible" "d2"

/-- C2 (code_bug evidence): `Reporter.SortBySeverity` sorts with Go's
`sort.Slice`, whose documented contract does not guarantee stability
(`sort.SliceStable` is the stable variant the code does not use; the
implementation is pdqsort, which really does reorder equal keys on larger
slices).  Hence on an input that is already severity-sorted and holds two
distinct equal-severity findings, the contract admits the swapped output:
the sort is neither guaranteed stable nor a guaranteed no-op, contradicting
the claimed stability and idempotence. -/
theorem sortBySeverity_stability_not_guaranteed :
    sortedBySeverity [exampleFindingA, exampleFindingB] = true ∧
    Reporter.SortBySeverity (NewReporter [exampleFindingA, exampleFindingB])
      (NewReporter [exampleFindingB, exampleFindingA]) ∧
    [exampleFindingB, exampleFindingA] ≠ [exampleFindingA, exampleFindingB] := by
  refine ⟨by decide, ⟨List.Perm.swap exampleFindingA exampleFindingB [], by decide⟩, by decide⟩

/-- C3: Sequential vs concurrent equivalence.  When no listing call fails,
every reachable outcome of `ScanConcurrent` returns no error, agrees with the
sequential `Scan` on the configured region, and its final findings are a
permutation (equal multiset) of the sequential run's findings. -/
theorem sequential_concurrent_equivalence (now : Nat) (data : AwsData) (s : Scanner)
    (out : Scanner × Option String)
    (h1 : s3Err data.buckets = none) (h2 : sgErr data.securityGroups = none)
    (h3 : iamErr data.users = none)
    (hrel : Scanner.ScanConcurrent now data s out) :
    out.2 = none ∧ (Scanner.Scan now data s).2 = none ∧
    out.1.region = (Scanner.Scan now data s).1.region ∧
    List.Perm out.1.findings ((Scanner.Scan now data s).1).findings := by
  obtain ⟨z, chan, hz, hchan, hout1, hout2⟩ := hrel
  have hscan := Scan_ok now data s h1 h2 h3
  have herrs : errorsSent data = [] := by simp [errorsSent, h1, h2, h3]
  rw [herrs] at hchan
  have hchan_nil : chan = [] := hchan.eq_nil
  refine ⟨by rw [hout2, hchan_nil]; rfl, by rw [hscan], by rw [hout1, hscan], ?_⟩
  rw [hout1, hscan]
  simp only [List.append_assoc]
  exact List.Perm.append_left s.findings
    (by simpa [List.append_assoc] using interleave3_perm hz)

/-- The HIGH finding the S3 check produces for `exampleUnencryptedBucket`
in region us-east-1 at clock 0. -/
def exampleEncFinding : Finding :=
  { ResourceID := "logs", ResourceType := "S3_BUCKET", Severity := "HIGH",
    Title := "S3 Bucket Not Encrypted",
    Description :=
      "Bucket \x27logs\x27 does not have server-side encryption enabled. Data at rest is not protected.",
    Region := "us-east-1", Account := "", Timestamp := 0 }

/-- Run data on which no check fails: one unencrypted bucket, no security
groups, no users. -/
def exampleScanData : AwsData :=
  { buckets := .ok [exampleUnencryptedBucket], securityGroups := .ok [], users := .ok [] }

/-- A concurrent outcome for `exampleScanData`: the single S3 finding, no
error. -/
def exampleConcurrentOut : Scanner × Option String :=
  ({ region := "us-east-1", findings := [exampleEncFinding] }, none)

/-- Witness for C3 at a concrete run with one finding. -/
theorem sequential_concurrent_equivalence_witness :
    exampleConcurrentOut.2 = none ∧ (Scanner.Scan 0 exampleScanData exampleStore).2 = none ∧
    exampleConcurrentOut.1.region = (Scanner.Scan 0 exampleScanData exampleStore).1.region ∧
    List.Perm exampleConcurrentOut.1.findings
      ((Scanner.Scan 0 exampleScanData exampleStore).1).findings := by
  have hd1 : s3Delta 0 exampleScanData.buckets "us-east-1" = [exampleEncFinding] := by decide
  have hd2 : sgDelta 0 exampleScanData.securityGroups "us-east-1" = [] := by decide
  have hd3 : iamDelta 0 exampleScanData.users "us-east-1" = [] := by decide
  refine sequential_concurrent_equivalence 0 exampleScanData exampleStore exampleConcurrentOut
    rfl rfl rfl ?_
  refine ⟨[exampleEncFinding], [], ⟨[exampleEncFinding], ?_, ?_⟩, ?_, by decide, rfl⟩
  · rw [show exampleStore.region = "us-east-1" from rfl, hd1, hd2]
    exact Interleave.left Interleave.nil
  · rw [show exampleStore.region = "us-east-1" from rfl, hd3]
    exact Interleave.left Interleave.nil
  · rw [show errorsSent exampleScanData = [] from rfl]

/-- C7: Concurrent error aggregation.  Every reachable outcome of
`ScanConcurrent` (all three tasks joined before returning) yields: no error
iff no check failed; any surfaced error is one of the failing checks' errors
(the head of a completion-order permutation); and the final findings are a
permutation of the initial findings plus the deltas of all three checks —
a failing check contributes its (empty) delta, so every successful check's
findings remain even when a sibling failed. -/
theorem concurrent_error_aggregation (now : Nat) (data : AwsData) (s : Scanner)
    (out : Scanner × Option String) (hrel : Scanner.ScanConcurrent now data s out) :
    (out.2 = none ↔ errorsSent data = []) ∧
    (∀ e, out.2 = some e → e ∈ errorsSent data) ∧
    List.Perm out.1.findings
      (s.findings ++ (s3Delta now data.buckets s.region ++
        (sgDelta now data.securityGroups s.region ++ iamDelta now data.users s.region))) := by
  obtain ⟨z, chan, hz, hchan, hout1, hout2⟩ := hrel
  refine ⟨?_, ?_, ?_⟩
  · rw [hout2]
    constructor
    · intro hnone
      have : chan = [] := by
        cases chan with
        | nil => rfl
        | cons a t => simp at hnone
      rw [this] at hchan
      exact hchan.symm.eq_nil
    · intro hnil
      rw [hnil] at hchan
      rw [hchan.eq_nil]
      rfl
  · intro e he
    rw [hout2] at he
    have hmem : e ∈ chan := by
      cases chan with
      | nil => simp at he
      | cons a t =>
        simp only [List.head?] at he
        injection he with he
        rw [← he]
        exact List.mem_cons_self a t
    exact hchan.mem_iff.mp hmem
  · rw [hout1]
    simp only
    exact List.Perm.append_left s.findings
      (by simpa [List.append_assoc] using interleave3_perm hz)

/-- The HIGH MFA finding the IAM check produces for `exampleConsoleUser`
in region us-east-1 at clock 0. -/
def exampleMfaFinding : Finding :=
  { ResourceID := "alex", ResourceType := "IAM_USER", Severity := "HIGH",
    Title := "IAM User Without MFA",
    Description :=
      "IAM user \x27alex\x27 has console access but no MFA device configured. MFA provides critical additional security layer.",
    Region := "us-east-1", Account := "", Timestamp := 0 }

/-- A concurrent outcome for `exampleAbortData`: the S3 and IAM findings both
land in the store although the security-group check failed, and the failing
check's error is surfaced. -/
def exampleConcurrentFailOut : Scanner × Option String :=
  ({ region := "us-east-1", findings := [exampleEncFinding, exampleMfaFinding] },
    some ("failed to describe security groups: " ++ "API timeout"))

/-- Witness for C7 at a concrete run where the security-group check fails. -/
theorem concurrent_error_aggregation_witness :
    (exampleConcurrentFailOut.2 = none ↔ errorsSent exampleAbortData = []) ∧
    (∀ e, exampleConcurrentFailOut.2 = some e → e ∈ errorsSent exampleAbortData) ∧
    List.Perm exampleConcurrentFailOut.1.findings
      (exampleStore.findings ++ (s3Delta 0 exampleAbortData.buckets exampleStore.region ++
        (sgDelta 0 exampleAbortData.securityGroups exampleStore.region ++
          iamDelta 0 exampleAbortData.users exampleStore.region))) := by
  have hd1 : s3Delta 0 exampleAbortData.buckets "us-east-1" = [exampleEncFinding] := by decide
  have hd2 : sgDelta 0 exampleAbortData.securityGroups "us-east-1" = [] := by decide
  have hd3 : iamDelta 0 exampleAbortData.users "us-east-1" = [exampleMfaFinding] := by decide
  refine concurrent_error_aggregation 0 exampleAbortData exampleStore exampleConcurrentFailOut ?_
  refine ⟨[exampleEncFinding, exampleMfaFinding],
    [("failed to describe security groups: " ++ "API timeout")],
    ⟨[exampleEncFinding], ?_, ?_⟩, ?_, by decide, rfl⟩
  · rw [show exampleStore.region = "us-east-1" from rfl, hd1, hd2]
    exact Interleave.left Interleave.nil
  · rw [show exampleStore.region = "us-east-1" from rfl, hd3]
    exact Interleave.left (Interleave.right Interleave.nil)
  · rw [show errorsSent exampleAbortData =
      [("failed to describe security groups: " ++ "API timeout")] from by decide]

end AwsScanner

